import Mathlib

/-!
Verification development for the ADB Projects scraper
(`adb_scraper`: `cloudflare.py`, `utils.py`, `scraper.py`).

The Python code is shallowly embedded: each relevant function is
translated into an executable Lean definition, and the behavioural
claims about the scraper are settled as theorems about those
definitions.  Randomness (jitter draws), wall-clock time and the two
network backends are passed in as explicit parameters, so every
definition is a pure function of its inputs.
-/

/-! ## Python string primitives

`pyIn needle haystack` models Python's `needle in haystack` substring
test (true for the empty needle), and `pyTake n s` models the slice
`s[:n]` (Python slices strings by code points, which matches slicing
the character list). -/

def isPrefixChars : List Char → List Char → Bool
  | [], _ => true
  | _ :: _, [] => false
  | c :: cs, d :: ds => c == d && isPrefixChars cs ds

def containsAt (needle : List Char) : List Char → Bool
  | [] => isPrefixChars needle []
  | c :: rest => isPrefixChars needle (c :: rest) || containsAt needle rest

def pyIn (needle haystack : String) : Bool :=
  containsAt needle.data haystack.data

def pyTake (n : Nat) (s : String) : String :=
  ⟨s.data.take n⟩

/-- Python's `str.lower()`, character by character (the header values
it is applied to are ASCII). -/
def pyLower (s : String) : String :=
  ⟨s.data.map Char.toLower⟩

/-! ## Block classifiers

`hybrid_is_blocked` embeds `HybridFetcher._is_blocked`
(`cloudflare.py` lines 285-296): a 403/503 status gated OR over five
substring signatures checked against the whole content.  Headers are
not an input of that method.

`is_cloudflare_block` embeds `ADBProjectScraper._is_cloudflare_block`
(`scraper.py` lines 220-238).  `requests` response headers are modelled
as a key/value list looked up by exact key (the claims under study do
not depend on header-name case).  The content signatures there are only
checked inside prefix windows: `response.text[:1000]` for the first
two phrases and `response.text[:500]` for `'Just a moment...'`. -/

def cfBlockers : List String :=
  ["Checking your browser",
   "Just a moment",
   "cf-browser-verification",
   "challenge-platform",
   "Cloudflare Ray ID"]

def hybrid_is_blocked (content : String) (status_code : Nat) : Bool :=
  if status_code = 403 ∨ status_code = 503 then
    cfBlockers.any (fun blocker => pyIn blocker content)
  else
    false

structure HttpResponse where
  text : String
  status_code : Nat
  headers : List (String × String)
deriving DecidableEq

def headersHasKey (hs : List (String × String)) (key : String) : Bool :=
  hs.any (fun kv => kv.1 == key)

def headersGet (hs : List (String × String)) (key : String) : String :=
  match hs.find? (fun kv => kv.1 == key) with
  | some kv => kv.2
  | none => ""

def is_cloudflare_block (r : HttpResponse) : Bool :=
  let indicators : List Bool :=
    [headersHasKey r.headers "cf-ray",
     pyIn "cloudflare" (pyLower (headersGet r.headers "server")),
     pyIn "Checking your browser" (pyTake 1000 r.text),
     pyIn "cf-browser-verification" (pyTake 1000 r.text),
     pyIn "Just a moment..." (pyTake 500 r.text)]
  indicators.any id && (r.status_code = 403 || r.status_code = 503)

/-- The block-classification rule exactly as the specification words it
for the requests-path classifier: blocked iff the status is in
{403, 503} and either the full content contains one of the fixed
signature phrases or a protection provider header accompanies such a
status.  (This is the spec-side definition for the refinement claim;
`is_cloudflare_block` above is the code-side one.) -/
def spec_block_rule (r : HttpResponse) : Bool :=
  (decide (r.status_code = 403 ∨ r.status_code = 503)) &&
    (["Checking your browser",
      "cf-browser-verification",
      "Just a moment..."].any (fun sig => pyIn sig r.text)
     || headersHasKey r.headers "cf-ray"
     || pyIn "cloudflare" (pyLower (headersGet r.headers "server")))

/-! ## HybridFetcher (`cloudflare.py` lines 268-337)

The orchestrator state is the mutable instance data set up in
`HybridFetcher.__init__`; the two backends are modelled by passing the
outcome each would produce on this call (`cs` for the cloudscraper
attempt, `pw` for the Playwright attempt).  `FetchCall` additionally
records which backends were actually invoked during the call, so that
"attempts the Browser Backend" is stated about the call itself. -/

structure HybridFetcher where
  use_playwright_fallback : Bool
  cloudflare_detected : Bool
  consecutive_failures : Nat
  playwright_initialized : Bool
deriving DecidableEq

def HybridFetcher.init (use_playwright_fallback : Bool) : HybridFetcher :=
  { use_playwright_fallback := use_playwright_fallback
    cloudflare_detected := false
    consecutive_failures := 0
    playwright_initialized := false }

inductive FetchAttempt
  | ok (content : String) (status : Nat)
  | exn
deriving DecidableEq

inductive FetchOutcome
  | success (content : String) (status : Nat)
  | allStrategiesFailed
deriving DecidableEq

structure FetchCall where
  state : HybridFetcher
  outcome : FetchOutcome
  csTried : Bool
  pwTried : Bool
deriving DecidableEq

def HybridFetcher.fetch (f : HybridFetcher) (cs pw : FetchAttempt) : FetchCall :=
  -- phase 1: cloudscraper, skipped when Cloudflare was already detected
  let step1 : HybridFetcher × Option (String × Nat) × Bool :=
    if f.cloudflare_detected = false then
      match cs with
      | .ok content status =>
        if hybrid_is_blocked content status = false then
          ({ f with consecutive_failures := 0 }, some (content, status), true)
        else
          ({ f with cloudflare_detected := true }, none, true)
      | .exn =>
        ({ f with consecutive_failures := f.consecutive_failures + 1 }, none, true)
    else
      (f, none, false)
  match step1 with
  | (f1, some (content, status), csT) =>
    { state := f1, outcome := .success content status, csTried := csT, pwTried := false }
  | (f1, none, csT) =>
    -- phase 2: Playwright fallback, then the terminal RuntimeError
    if f1.use_playwright_fallback then
      let f2 := { f1 with playwright_initialized := true }
      match pw with
      | .ok content status =>
        if hybrid_is_blocked content status = false then
          { state := f2, outcome := .success content status, csTried := csT, pwTried := true }
        else
          { state := f2, outcome := .allStrategiesFailed, csTried := csT, pwTried := true }
      | .exn =>
        { state := f2, outcome := .allStrategiesFailed, csTried := csT, pwTried := true }
    else
      { state := f1, outcome := .allStrategiesFailed, csTried := csT, pwTried := false }

/-- All states an instance passes through while serving a sequence of
fetch calls (the starting state followed by the state after each call). -/
def fetchStates (f : HybridFetcher) : List (FetchAttempt × FetchAttempt) → List HybridFetcher
  | [] => [f]
  | a :: rest => f :: fetchStates (f.fetch a.1 a.2).state rest

/-! ## Error taxonomy (`exceptions.py`)

An exception value is modelled by its class name and message, which is
exactly what "same kind and message" of the retry contract is about. -/

structure Exn where
  kind : String
  msg : String
deriving DecidableEq

/-! ## retry_with_backoff (`utils.py` lines 47-110)

The wrapped operation is modelled as `op : Nat → Except Exn α`, giving
the outcome of its i-th invocation (0-based).  `retryable e` models
`isinstance(e, exceptions)`: an exception not matched by the decorated
`except` clause propagates immediately.  `RetryResult` additionally
counts invocations of `op` and sleeps performed, so the "exactly k+1
calls" and "no sleep" parts of the contract are statable.  The `fuel`
argument is always `maxRetries - attempt` (the number of loop
iterations still ahead of the current one), so the `fuel = 0` fallback
coincides with the `attempt == max_retries` re-raise and is never the
deciding branch. -/

structure RetryResult (α : Type) where
  result : Except Exn α
  calls : Nat
  sleeps : Nat

def retryGo {α : Type} (retryable : Exn → Bool) (op : Nat → Except Exn α)
    (maxRetries : Nat) : Nat → Nat → RetryResult α
  | attempt, fuel =>
    match op attempt with
    | .ok a => ⟨.ok a, 1, 0⟩
    | .error e =>
      if retryable e = true then
        if attempt = maxRetries then ⟨.error e, 1, 0⟩
        else
          match fuel with
          | 0 => ⟨.error e, 1, 0⟩
          | f + 1 =>
            let r := retryGo retryable op maxRetries (attempt + 1) f
            ⟨r.result, r.calls + 1, r.sleeps + 1⟩
      else ⟨.error e, 1, 0⟩

def retry_with_backoff {α : Type} (maxRetries : Nat) (retryable : Exn → Bool)
    (op : Nat → Except Exn α) : RetryResult α :=
  retryGo retryable op maxRetries 0 maxRetries

/-! ## Backoff delay computation (`utils.py` lines 90-95)

Python floats are modelled as rationals.  `r` stands for the value
returned by `random.random()`, a draw from `[0, 1)`. -/

def backoffDelay (base_delay exponential_base max_delay : ℚ) (attempt : Nat) : ℚ :=
  min (base_delay * exponential_base ^ attempt) max_delay

def jitterFactor (r : ℚ) : ℚ := 1/2 + r

def sleepDelay (jitter : Bool) (base_delay exponential_base max_delay : ℚ)
    (attempt : Nat) (r : ℚ) : ℚ :=
  let delay := backoffDelay base_delay exponential_base max_delay attempt
  if jitter then delay * jitterFactor r else delay

/-! ## RateLimiter (`utils.py` lines 113-150)

`wait` is modelled as a function of the current clock reading `now` and
the draw `d` of `random.uniform(min_delay, max_delay)`.  It returns the
time slept and the updated limiter.  The clock is idealized: sleeping
`s` seconds from `now` and re-reading the clock yields `now + s`, which
is what `self.last_request_time = time.time()` stores after the sleep. -/

structure RateLimiter where
  min_delay : ℚ
  max_delay : ℚ
  last_request_time : Option ℚ
deriving DecidableEq

def RateLimiter.make (min_delay max_delay : ℚ) : RateLimiter :=
  { min_delay := min_delay, max_delay := max_delay, last_request_time := none }

def RateLimiter.wait (rl : RateLimiter) (now d : ℚ) : ℚ × RateLimiter :=
  match rl.last_request_time with
  | none => (0, { rl with last_request_time := now })
  | some t =>
    let elapsed := now - t
    let sleep_time := if elapsed < d then d - elapsed else 0
    (sleep_time, { rl with last_request_time := now + sleep_time })

def RateLimiter.reset (rl : RateLimiter) : RateLimiter :=
  { rl with last_request_time := none }

/-! ## Crawl controller (`scraper.py`)

`scrape_projects` is a generator; one run of it is modelled as a pure
function of the sequence of listing-page outcomes the fetch/parse
pipeline would produce for the successive pages the loop requests.

* `PageOutcome` is what one call to `scrape_listing_page` does:
  return a parsed page, or raise `CloudflareBlockError`, or raise some
  other `ScraperError` (retrying of `NetworkError` inside
  `_fetch_with_retry` happens below this interface and is modelled
  separately by `retry_with_backoff`).
* Each listing entry carries the outcome its detail page would have
  (`DetailOutcome`), consumed only when `include_details` is true.
* `Stats` mirrors the five counters set up in
  `ADBProjectScraper.__init__` (lines 107-114); the crawl only ever
  touches keys that exist there, so a fixed-field structure is a
  faithful rendering of the dict at these program points.
* `CrawlResult.raised` is the case of an exception escaping the
  generator; the loop's translation shows which outcomes produce it.
-/

structure Stats where
  pages_scraped : Nat
  projects_found : Nat
  details_fetched : Nat
  errors : Nat
  cloudflare_bypassed : Nat
deriving DecidableEq

inductive PRecord
  | listing (id : Nat)
  | detail (id : Nat)
  | detailFromListing (id : Nat)
deriving DecidableEq

inductive DetailOutcome
  | ok (d : PRecord)
  | scraperError (e : Exn)
  | otherError
deriving DecidableEq

structure PageData where
  projects : List (Nat × DetailOutcome)
  next_url : Option String
deriving DecidableEq

inductive PageOutcome
  | ok (p : PageData)
  | cloudflareBlock
  | scraperError (e : Exn)
deriving DecidableEq

/-- Embeds `ADBProjectScraper.scrape_project_detail` (lines 286-310): on a
`ScraperError` from the fetch/parse of the detail page it logs, bumps
the error counter and returns `ProjectDetail.from_listing(project)`;
a non-`ScraperError` exception propagates to the caller (modelled by
the `otherError` case being handled in `processProject` instead). -/
def scrape_project_detail (id : Nat) (outcome : DetailOutcome) (stats : Stats) :
    Option (PRecord × Stats) :=
  match outcome with
  | .ok d => some (d, { stats with details_fetched := stats.details_fetched + 1 })
  | .scraperError _ =>
    some (.detailFromListing id, { stats with errors := stats.errors + 1 })
  | .otherError => none

/-- The per-record body of the yield loop in `scrape_projects`
(lines 358-367): with details requested, call `scrape_project_detail`
and yield its result; if it raises (any `Exception`), yield the
listing record itself.  Without details, yield the listing record. -/
def processProject (includeDetails : Bool) (stats : Stats) (item : Nat × DetailOutcome) :
    PRecord × Stats :=
  if includeDetails then
    match scrape_project_detail item.1 item.2 stats with
    | some (r, stats1) => (r, stats1)
    | none => (.listing item.1, stats)
  else
    (.listing item.1, stats)

def processProjects (includeDetails : Bool) (stats : Stats) :
    List (Nat × DetailOutcome) → List PRecord × Stats
  | [] => ([], stats)
  | item :: rest =>
    let (r, stats1) := processProject includeDetails stats item
    let (rs, stats2) := processProjects includeDetails stats1 rest
    (r :: rs, stats2)

/-- The record yielded for one listing entry, which does not depend on
the statistics accumulator. -/
def yieldOf (includeDetails : Bool) (item : Nat × DetailOutcome) : PRecord :=
  (processProject includeDetails ⟨0, 0, 0, 0, 0⟩ item).1

inductive StopReason
  | maxPagesReached
  | emptyPage
  | noNextUrl
  | cloudflareStop
  | errorStop (e : Exn)
  | outOfPages
deriving DecidableEq

inductive CrawlResult
  | finished (yielded : List PRecord) (stats : Stats) (reason : StopReason)
  | raised (yielded : List PRecord) (stats : Stats) (e : Exn)
deriving DecidableEq

def CrawlResult.yieldedRecords : CrawlResult → List PRecord
  | .finished y _ _ => y
  | .raised y _ _ => y

def CrawlResult.isRaised : CrawlResult → Bool
  | .finished _ _ _ => false
  | .raised _ _ _ => true

/-- The generator loop of `ADBProjectScraper.scrape_projects`
(lines 312-383), run against the successive page outcomes `env`.
`maxPages = 0` renders `if max_pages and ...` false, i.e. no page
limit (Python treats both `None` and `0` as falsy there).
`pagesScraped` is the loop-local counter (not `stats['pages_scraped']`).
`scrape_listing_page` (lines 252-284) bumps `pages_scraped` and
`projects_found` on success and bumps `errors` before re-raising a
`ScraperError`; `scrape_projects` catches `CloudflareBlockError` and
`ScraperError` and breaks out of the loop (the `ScraperError` handler
bumps `errors` once more, line 382).  An empty `env` means the run was
cut off before the next fetch, ending the modelled trace. -/
def scrapeLoop (includeDetails : Bool) (maxPages : Nat) (stats : Stats)
    (pagesScraped : Nat) : List PageOutcome → CrawlResult
  | [] => .finished [] stats .outOfPages
  | page :: rest =>
    if maxPages ≠ 0 ∧ pagesScraped ≥ maxPages then
      .finished [] stats .maxPagesReached
    else
      match page with
      | .cloudflareBlock =>
        .finished [] { stats with errors := stats.errors + 1 } .cloudflareStop
      | .scraperError e =>
        .finished []
          { stats with errors := stats.errors + 2 } (.errorStop e)
      | .ok p =>
        let stats1 :=
          { stats with
            pages_scraped := stats.pages_scraped + 1
            projects_found := stats.projects_found + p.projects.length }
        if p.projects.isEmpty then
          .finished [] stats1 .emptyPage
        else
          let (recs, stats2) := processProjects includeDetails stats1 p.projects
          match p.next_url with
          | none => .finished recs stats2 .noNextUrl
          | some _ =>
            match scrapeLoop includeDetails maxPages stats2 (pagesScraped + 1) rest with
            | .finished ys st r => .finished (recs ++ ys) st r
            | .raised ys st e => .raised (recs ++ ys) st e

/-! ## Statistics dictionaries (`scraper.py` lines 107-114, 425-440)

The dict *shape* matters for the reset claim, so the construction-time
and reset-time dict literals are modelled as key/value lists. -/

def initStatsDict : List (String × Nat) :=
  [("pages_scraped", 0),
   ("projects_found", 0),
   ("details_fetched", 0),
   ("errors", 0),
   ("cloudflare_bypassed", 0)]

/-- The dict literal assigned by `ADBProjectScraper.reset_stats`. -/
def resetStatsDict : List (String × Nat) :=
  [("pages_scraped", 0),
   ("projects_found", 0),
   ("details_fetched", 0),
   ("errors", 0)]

def dictHasKey (d : List (String × Nat)) (key : String) : Bool :=
  d.any (fun kv => kv.1 == key)

def dictGet (d : List (String × Nat)) (key : String) : Option Nat :=
  match d.find? (fun kv => kv.1 == key) with
  | some kv => some kv.2
  | none => none

/-- Embeds `ADBProjectScraper.get_stats`: returns `self.stats.copy()`; a copy
of an immutable model value is the value itself. -/
def get_stats (d : List (String × Nat)) : List (String × Nat) := d

/-- A challenge page whose marker phrase appears only after the first
500 characters of the body. -/
def paddedChallengePage : String :=
  ⟨List.replicate 500 ' ' ++ "Just a moment...".data⟩

/-! ## Helper lemmas -/

/-- Once the sticky flag is set, one more fetch call leaves it set. -/
lemma fetch_detected_mono (f : HybridFetcher) (cs pw : FetchAttempt)
    (h : f.cloudflare_detected = true) :
    (f.fetch cs pw).state.cloudflare_detected = true := by
  unfold HybridFetcher.fetch
  simp only [h]
  cases hb : f.use_playwright_fallback <;> cases pw <;>
    simp [hb, h] <;> split <;> simp [h]

/-- Once the sticky flag is set, it is set in every state of any
subsequent call sequence. -/
lemma fetchStates_detected_mono (l : List (FetchAttempt × FetchAttempt)) :
    ∀ (f0 : HybridFetcher), f0.cloudflare_detected = true →
      ∀ g ∈ fetchStates f0 l, g.cloudflare_detected = true := by
  induction l with
  | nil =>
    intro f0 h g hg
    simp [fetchStates] at hg
    subst hg
    exact h
  | cons a rest ih =>
    intro f0 h g hg
    simp only [fetchStates, List.mem_cons] at hg
    rcases hg with rfl | hg
    · exact h
    · exact ih _ (fetch_detected_mono f0 a.1 a.2 h) g hg

/-- A fetch call in NORMAL state whose cloudscraper response is
classified blocked: the flag is set, and the Playwright attempt happens
iff the fallback is enabled. -/
lemma fetch_blocked_step (f : HybridFetcher) (pw : FetchAttempt) (c : String) (s : Nat)
    (hdet : f.cloudflare_detected = false) (hblk : hybrid_is_blocked c s = true) :
    (f.fetch (.ok c s) pw).state.cloudflare_detected = true ∧
    (f.fetch (.ok c s) pw).pwTried = f.use_playwright_fallback := by
  unfold HybridFetcher.fetch
  simp only [hdet, hblk]
  cases hb : f.use_playwright_fallback <;> cases pw <;>
    simp [hb, hblk] <;> split <;> simp

/-- A fetch call in NORMAL state whose cloudscraper attempt raises:
the flag stays clear, the failure counter is bumped, and the Playwright
attempt happens iff the fallback is enabled. -/
lemma fetch_exn_step (f : HybridFetcher) (pw : FetchAttempt)
    (hdet : f.cloudflare_detected = false) :
    (f.fetch .exn pw).state.cloudflare_detected = false ∧
    (f.fetch .exn pw).state.consecutive_failures = f.consecutive_failures + 1 ∧
    (f.fetch .exn pw).pwTried = f.use_playwright_fallback := by
  unfold HybridFetcher.fetch
  simp only [hdet]
  cases hb : f.use_playwright_fallback <;> cases pw <;>
    simp [hb, hdet] <;> split <;> simp [hdet]

/-! ## Claim C1 -/

/-- C1, as stated, is refuted at an instance constructed with
`use_playwright_fallback = False`: its first fetch call gets a blocked
cloudscraper response, the instance transitions to ESCALATED, but no
Browser (Playwright) attempt is made within the call — the call raises
the all-strategies-failed error directly. -/
theorem C1_counterexample :
    (HybridFetcher.fetch (HybridFetcher.init false) (.ok "Just a moment" 503)
      (.ok "real page" 200)).state.cloudflare_detected = true ∧
    (HybridFetcher.fetch (HybridFetcher.init false) (.ok "Just a moment" 503)
      (.ok "real page" 200)).pwTried = false ∧
    (HybridFetcher.fetch (HybridFetcher.init false) (.ok "Just a moment" 503)
      (.ok "real page" 200)).outcome = .allStrategiesFailed := by decide

/-- C1 (amended): in NORMAL state, a fetch call whose Lightweight
(cloudscraper) response is classified blocked transitions the instance
to ESCALATED within that same call, and — provided the Browser fallback
is enabled — attempts the Browser (Playwright) backend before
returning; and the escalated flag is monotonic: once true it is true in
every later state of the instance, over any sequence of fetch calls. -/
theorem C1_blocked_escalates_and_flag_monotonic (f : HybridFetcher)
    (pw : FetchAttempt) (c : String) (s : Nat)
    (hdet : f.cloudflare_detected = false) (hblk : hybrid_is_blocked c s = true) :
    (f.fetch (.ok c s) pw).state.cloudflare_detected = true ∧
    (f.use_playwright_fallback = true → (f.fetch (.ok c s) pw).pwTried = true) ∧
    (∀ (f0 : HybridFetcher) (l : List (FetchAttempt × FetchAttempt)),
      f0.cloudflare_detected = true →
        ∀ g ∈ fetchStates f0 l, g.cloudflare_detected = true) := by
  obtain ⟨h1, h2⟩ := fetch_blocked_step f pw c s hdet hblk
  exact ⟨h1, fun hfb => by rw [h2, hfb],
    fun f0 l h0 => fetchStates_detected_mono l f0 h0⟩

/-- Witness for C1: the default (fallback-enabled) instance, fed a
blocked challenge page by cloudscraper, escalates and tries Playwright
in the same call. -/
theorem C1_witness :
    (HybridFetcher.fetch (HybridFetcher.init true) (.ok "Just a moment" 503)
      (.ok "real page" 200)).state.cloudflare_detected = true ∧
    (HybridFetcher.fetch (HybridFetcher.init true) (.ok "Just a moment" 503)
      (.ok "real page" 200)).pwTried = true :=
  ⟨(C1_blocked_escalates_and_flag_monotonic (HybridFetcher.init true)
      (.ok "real page" 200) "Just a moment" 503 rfl (by decide)).1,
   (C1_blocked_escalates_and_flag_monotonic (HybridFetcher.init true)
      (.ok "real page" 200) "Just a moment" 503 rfl (by decide)).2.1 rfl⟩

/-! ## Claim C5 -/

/-- C5, as stated, is refuted: a NORMAL instance with Browser fallback
enabled whose cloudscraper attempt raises does NOT transition to
ESCALATED — the exception handler only bumps `_consecutive_failures`
and leaves `_cloudflare_detected` false. -/
theorem C5_counterexample :
    (HybridFetcher.fetch (HybridFetcher.init true) .exn
      (.ok "recovered page" 200)).state.cloudflare_detected = false ∧
    (HybridFetcher.init true).use_playwright_fallback = true ∧
    (HybridFetcher.init true).cloudflare_detected = false := by decide

/-- C5 (amended): in NORMAL state, if the Lightweight (cloudscraper)
backend raises during a fetch call, the instance does NOT transition to
ESCALATED: the sticky flag stays false (so the next call tries the
Lightweight backend again), the consecutive-failure counter is bumped,
and — when the Browser fallback is enabled — the Browser backend is
still attempted within the same call. -/
theorem C5_lightweight_exception_no_escalation (f : HybridFetcher)
    (pw : FetchAttempt) (hdet : f.cloudflare_detected = false) :
    (f.fetch .exn pw).state.cloudflare_detected = false ∧
    (f.fetch .exn pw).state.consecutive_failures = f.consecutive_failures + 1 ∧
    (f.use_playwright_fallback = true → (f.fetch .exn pw).pwTried = true) := by
  obtain ⟨h1, h2, h3⟩ := fetch_exn_step f pw hdet
  exact ⟨h1, h2, fun hfb => by rw [h3, hfb]⟩

/-- Witness for C5 (amended). -/
theorem C5_witness :
    (HybridFetcher.fetch (HybridFetcher.init true) .exn
      (.ok "recovered page" 200)).state.cloudflare_detected = false ∧
    (HybridFetcher.fetch (HybridFetcher.init true) .exn
      (.ok "recovered page" 200)).state.consecutive_failures = 0 + 1 :=
  ⟨(C5_lightweight_exception_no_escalation (HybridFetcher.init true)
      (.ok "recovered page" 200) rfl).1,
   (C5_lightweight_exception_no_escalation (HybridFetcher.init true)
      (.ok "recovered page" 200) rfl).2.1⟩

/-! ## Claim C10 -/

/-- C10: with `use_playwright_fallback = False`, a blocked cloudscraper
response sets the sticky flag, and once the flag is set every later
fetch call on that instance raises the all-strategies-failed error
immediately, leaving the state untouched and invoking neither the
cloudscraper nor the Playwright backend. -/
theorem C10_no_fallback_fails_immediately (f : HybridFetcher)
    (cs pw : FetchAttempt) (c : String) (s : Nat)
    (hfb : f.use_playwright_fallback = false) :
    (f.cloudflare_detected = false → hybrid_is_blocked c s = true →
      (f.fetch (.ok c s) pw).state.cloudflare_detected = true) ∧
    (f.cloudflare_detected = true →
      f.fetch cs pw =
        { state := f, outcome := .allStrategiesFailed,
          csTried := false, pwTried := false }) := by
  constructor
  · intro hdet hblk
    exact (fetch_blocked_step f pw c s hdet hblk).1
  · intro hdet
    unfold HybridFetcher.fetch
    simp [hdet, hfb]

/-- Witness for C10: a fallback-disabled instance is blocked once, and
its next call raises immediately with neither backend invoked. -/
theorem C10_witness :
    ((HybridFetcher.fetch (HybridFetcher.init false) (.ok "Just a moment" 503)
        (.ok "real page" 200)).state.cloudflare_detected = true) ∧
    (HybridFetcher.fetch
        ⟨false, true, 0, false⟩ (.ok "real page" 200) (.ok "real page" 200) =
      { state := ⟨false, true, 0, false⟩, outcome := .allStrategiesFailed,
        csTried := false, pwTried := false }) :=
  ⟨(C10_no_fallback_fails_immediately (HybridFetcher.init false)
      (.ok "real page" 200) (.ok "real page" 200) "Just a moment" 503 rfl).1
      rfl (by decide),
   (C10_no_fallback_fails_immediately ⟨false, true, 0, false⟩
      (.ok "real page" 200) (.ok "real page" 200) "x" 0 rfl).2 rfl⟩

/-! ## Claim C4 -/

set_option maxRecDepth 100000 in
/-- C4, as stated, is refuted: `_is_cloudflare_block` checks its
signature phrases only inside a bounded prefix of the content
(`text[:1000]` / `text[:500]`), so a 403 response whose challenge
phrase sits past that window is NOT classified blocked although the
claim's rule ("the content contains at least one of the fixed
signatures") classifies it blocked. -/
theorem C4_counterexample :
    spec_block_rule ⟨paddedChallengePage, 403, []⟩ = true ∧
    is_cloudflare_block ⟨paddedChallengePage, 403, []⟩ = false := by decide

/-- C4 (amended): the classifiers are characterised exactly as in the
claim with two qualifications forced by the code: the hybrid
classifier's signature search covers the whole content but consults no
headers, and the requests-path classifier consults headers but searches
its three signature phrases only within a bounded prefix of the content
(first 1000 characters for two phrases, first 500 for
`'Just a moment...'`).  In particular a 2xx status is never classified
blocked by either classifier, whatever the content and headers. -/
theorem C4_block_classifier_characterisation (content : String) (status : Nat)
    (r : HttpResponse) :
    (200 ≤ status → status < 300 → hybrid_is_blocked content status = false) ∧
    (200 ≤ r.status_code → r.status_code < 300 → is_cloudflare_block r = false) ∧
    (hybrid_is_blocked content status = true ↔
      (status = 403 ∨ status = 503) ∧
        ∃ b ∈ cfBlockers, pyIn b content = true) ∧
    (is_cloudflare_block r = true ↔
      (r.status_code = 403 ∨ r.status_code = 503) ∧
        (headersHasKey r.headers "cf-ray" = true ∨
         pyIn "cloudflare" (pyLower (headersGet r.headers "server")) = true ∨
         pyIn "Checking your browser" (pyTake 1000 r.text) = true ∨
         pyIn "cf-browser-verification" (pyTake 1000 r.text) = true ∨
         pyIn "Just a moment..." (pyTake 500 r.text) = true)) := by
  refine ⟨?_, ?_, ?_, ?_⟩
  · intro h1 h2
    have hs : ¬(status = 403 ∨ status = 503) := by omega
    simp [hybrid_is_blocked, hs]
  · intro h1 h2
    have h403 : r.status_code ≠ 403 := by omega
    have h503 : r.status_code ≠ 503 := by omega
    simp [is_cloudflare_block, h403, h503]
  · by_cases hs : status = 403 ∨ status = 503 <;>
      simp [hybrid_is_blocked, hs]
  · simp only [is_cloudflare_block, List.any_cons, List.any_nil, id,
      Bool.or_false, Bool.and_eq_true, Bool.or_eq_true, decide_eq_true_eq]
    tauto

/-- Witness for C4 (amended): a 200 response carrying a challenge
phrase (and a `cf-ray` header) is still not classified blocked, by
either classifier. -/
theorem C4_witness :
    hybrid_is_blocked "Just a moment" 200 = false ∧
    is_cloudflare_block ⟨"Just a moment...", 200, [("cf-ray", "abc")]⟩ = false :=
  ⟨(C4_block_classifier_characterisation "Just a moment" 200
      ⟨"Just a moment...", 200, [("cf-ray", "abc")]⟩).1 (by decide) (by decide),
   (C4_block_classifier_characterisation "Just a moment" 200
      ⟨"Just a moment...", 200, [("cf-ray", "abc")]⟩).2.1 (by decide) (by decide)⟩

/-! ## Claim C9 -/

/-- C9, as stated, is refuted: the `cloudflare_bypassed` counter is
present (with value 0) in the stats dict built by `__init__`, but the
dict literal assigned by `reset_stats` omits it, so after a reset that
counter is no longer present in the accumulator at all. -/
theorem C9_counterexample :
    dictGet initStatsDict "cloudflare_bypassed" = some 0 ∧
    dictGet resetStatsDict "cloudflare_bypassed" = none := by decide

/-- C9 (amended): after `reset_stats`, the four counters
`pages_scraped`, `projects_found`, `details_fetched` and `errors` are
present in the accumulator and equal to zero, and the snapshot
(`get_stats`, a copy of the dict) remains readable; the fifth
construction-time counter, `cloudflare_bypassed`, is dropped by the
reset rather than zeroed. -/
theorem C9_reset_zeroes_four_counters_drops_bypass :
    dictGet resetStatsDict "pages_scraped" = some 0 ∧
    dictGet resetStatsDict "projects_found" = some 0 ∧
    dictGet resetStatsDict "details_fetched" = some 0 ∧
    dictGet resetStatsDict "errors" = some 0 ∧
    dictHasKey initStatsDict "cloudflare_bypassed" = true ∧
    dictHasKey resetStatsDict "cloudflare_bypassed" = false ∧
    get_stats resetStatsDict = resetStatsDict ∧
    get_stats initStatsDict = initStatsDict := by decide

/-! ## Claim C3 -/

/-- If, starting at `attempt`, the operation fails retryably `k` times
and then succeeds, the retry loop returns the success with `k + 1`
invocations and `k` sleeps.  `fuel` only needs to cover the `k`
iterations ahead, and `attempt + k` must be within the bound. -/
lemma retryGo_succeeds {α : Type} (retryable : Exn → Bool) (op : Nat → Except Exn α)
    (maxRetries : Nat) (v : α) :
    ∀ (k attempt fuel : Nat), k ≤ fuel → attempt + k ≤ maxRetries →
      (∀ i, i < k → ∃ ex, op (attempt + i) = .error ex ∧ retryable ex = true) →
      op (attempt + k) = .ok v →
      retryGo retryable op maxRetries attempt fuel = ⟨.ok v, k + 1, k⟩ := by
  intro k
  induction k with
  | zero =>
    intro attempt fuel _ _ _ hok
    rw [Nat.add_zero] at hok
    unfold retryGo
    rw [hok]
  | succ k ih =>
    intro attempt fuel hfuel hle hfail hok
    obtain ⟨ex, hex, hr⟩ := hfail 0 (Nat.succ_pos k)
    rw [Nat.add_zero] at hex
    have hne : attempt ≠ maxRetries := by omega
    cases fuel with
    | zero => omega
    | succ f =>
      have hrec : retryGo retryable op maxRetries (attempt + 1) f = ⟨.ok v, k + 1, k⟩ := by
        refine ih (attempt + 1) f (by omega) (by omega) ?_ ?_
        · intro i hi
          obtain ⟨ex2, hex2, hr2⟩ := hfail (i + 1) (by omega)
          exact ⟨ex2, by rw [show attempt + 1 + i = attempt + (i + 1) by omega]; exact hex2, hr2⟩
        · rw [show attempt + 1 + k = attempt + (k + 1) by omega]
          exact hok
      unfold retryGo
      rw [hex]
      simp only [hr, if_true, hne, if_false, hrec, reduceIte]
  
/-- If every invocation up to the bound fails retryably, the retry loop
re-raises the last failure after `maxRetries - attempt + 1` calls. -/
lemma retryGo_exhausts {α : Type} (retryable : Exn → Bool) (op : Nat → Except Exn α)
    (maxRetries : Nat) (e : Nat → Exn) :
    ∀ (fuel attempt : Nat), fuel = maxRetries - attempt → attempt ≤ maxRetries →
      (∀ i, i ≤ maxRetries → op i = .error (e i) ∧ retryable (e i) = true) →
      retryGo retryable op maxRetries attempt fuel =
        ⟨.error (e maxRetries), maxRetries - attempt + 1, maxRetries - attempt⟩ := by
  intro fuel
  induction fuel with
  | zero =>
    intro attempt hf hle hfail
    have heq : attempt = maxRetries := by omega
    subst heq
    obtain ⟨hop, hr⟩ := hfail attempt (Nat.le_refl _)
    unfold retryGo
    rw [hop]
    simp [hr, Nat.sub_self]
  | succ f ih =>
    intro attempt hf hle hfail
    have hlt : attempt < maxRetries := by omega
    have hne : attempt ≠ maxRetries := by omega
    obtain ⟨hop, hr⟩ := hfail attempt (by omega)
    unfold retryGo
    rw [hop]
    simp only [hr, if_true, hne, if_false, reduceIte]
    rw [ih (attempt + 1) (by omega) (by omega) hfail]
    have h1 : maxRetries - (attempt + 1) + 1 = maxRetries - attempt := by omega
    simp [h1]

/-- C3: the Backoff Retrier contract.  (1) If the operation fails
retryably on its first `k ≤ max_retries` calls and succeeds on call
`k + 1`, the wrapper returns that success and the operation was invoked
exactly `k + 1` times.  (2) If it fails retryably on all
`max_retries + 1` calls, the wrapper re-raises the last failure
unchanged (same kind and message, being the same `Exn` value).
(3) With `max_retries = 0` there is exactly one invocation, no sleep
and no retry, the call's outcome being passed through as is. -/
theorem C3_retry_with_backoff_contract {α : Type} (maxRetries k : Nat)
    (retryable : Exn → Bool) (op : Nat → Except Exn α) (v : α) (e : Nat → Exn)
    (hk : k ≤ maxRetries) :
    ((∀ i, i < k → op i = .error (e i) ∧ retryable (e i) = true) →
      op k = .ok v →
      retry_with_backoff maxRetries retryable op = ⟨.ok v, k + 1, k⟩) ∧
    ((∀ i, i ≤ maxRetries → op i = .error (e i) ∧ retryable (e i) = true) →
      retry_with_backoff maxRetries retryable op =
        ⟨.error (e maxRetries), maxRetries + 1, maxRetries⟩) ∧
    (retry_with_backoff 0 retryable op = ⟨op 0, 1, 0⟩) := by
  refine ⟨?_, ?_, ?_⟩
  · intro hfail hok
    unfold retry_with_backoff
    refine retryGo_succeeds retryable op maxRetries v k 0 maxRetries hk (by omega) ?_ ?_
    · intro i hi
      obtain ⟨h1, h2⟩ := hfail i hi
      exact ⟨e i, by rw [Nat.zero_add]; exact h1, h2⟩
    · rw [Nat.zero_add]; exact hok
  · intro hfail
    unfold retry_with_backoff
    have := retryGo_exhausts retryable op maxRetries e maxRetries 0
      (by omega) (Nat.zero_le _) hfail
    rw [this]
    simp
  · unfold retry_with_backoff retryGo
    cases hop : op 0 with
    | ok a => rfl
    | error ex =>
      by_cases hr : retryable ex = true <;> simp [hr]

/-- Witness for C3: two retryable network failures followed by a
success; exhaustion with `max_retries = 1`; and the pass-through at
`max_retries = 0`. -/
theorem C3_witness :
    (retry_with_backoff 3 (fun ex => ex.kind == "NetworkError")
        (fun i => if i < 2 then .error ⟨"NetworkError", "timeout"⟩ else .ok 7)
      = ⟨.ok 7, 3, 2⟩) ∧
    (retry_with_backoff 1 (fun ex => ex.kind == "NetworkError")
        (fun _ => (.error ⟨"NetworkError", "refused"⟩ : Except Exn Nat))
      = ⟨.error ⟨"NetworkError", "refused"⟩, 2, 1⟩) ∧
    (retry_with_backoff 0 (fun ex => ex.kind == "NetworkError")
        (fun i => if i < 2 then .error ⟨"NetworkError", "timeout"⟩ else .ok 7)
      = ⟨(fun i => if i < 2 then (.error ⟨"NetworkError", "timeout"⟩ : Except Exn Nat)
            else .ok 7) 0, 1, 0⟩) :=
  ⟨(C3_retry_with_backoff_contract 3 2 (fun ex => ex.kind == "NetworkError")
      (fun i => if i < 2 then .error ⟨"NetworkError", "timeout"⟩ else .ok 7) 7
      (fun _ => ⟨"NetworkError", "timeout"⟩) (by omega)).1
      (by intro i hi; interval_cases i <;> exact ⟨rfl, rfl⟩) rfl,
   (C3_retry_with_backoff_contract 1 0 (fun ex => ex.kind == "NetworkError")
      (fun _ => (.error ⟨"NetworkError", "refused"⟩ : Except Exn Nat)) 0
      (fun _ => ⟨"NetworkError", "refused"⟩) (by omega)).2.1
      (by intro i _; exact ⟨rfl, rfl⟩),
   (C3_retry_with_backoff_contract 0 0 (fun ex => ex.kind == "NetworkError")
      (fun i => if i < 2 then .error ⟨"NetworkError", "timeout"⟩ else .ok 7) 7
      (fun _ => ⟨"NetworkError", "timeout"⟩) (by omega)).2.2⟩

/-! ## Claim C7 -/

/-- C7: the Pacer contract.  With the drawn delay `d` in
`[min_delay, max_delay]`: a `wait` with no recorded previous request
returns without sleeping and records the clock; a `wait` with a
recorded previous request at `t` completes no earlier than `t + d`
(hence no earlier than `t + min_delay`, so successive waits are
separated by at least `min_delay`) and records its completion time; and
after `reset` the next `wait` returns without sleeping. -/
theorem C7_rate_limiter_contract (rl : RateLimiter) (now d t : ℚ)
    (hd1 : rl.min_delay ≤ d) (hd2 : d ≤ rl.max_delay) :
    (rl.last_request_time = none →
      (rl.wait now d).1 = 0 ∧
      (rl.wait now d).2.last_request_time = some now) ∧
    (rl.last_request_time = some t →
      t + d ≤ now + (rl.wait now d).1 ∧
      t + rl.min_delay ≤ now + (rl.wait now d).1 ∧
      (rl.wait now d).2.last_request_time = some (now + (rl.wait now d).1)) ∧
    ((rl.reset.wait now d).1 = 0 ∧
      (rl.reset.wait now d).2.last_request_time = some now) := by
  refine ⟨?_, ?_, ?_⟩
  · intro h
    simp [RateLimiter.wait, h]
  · intro h
    simp only [RateLimiter.wait, h]
    by_cases hlt : now - t < d
    · simp only [hlt, if_true, reduceIte]
      refine ⟨by linarith, by linarith, ?_⟩
      simp
    · simp only [hlt, if_false, reduceIte]
      push_neg at hlt
      refine ⟨by linarith, by linarith, ?_⟩
      simp
  · simp [RateLimiter.wait, RateLimiter.reset]

/-- Witness for C7: a limiter with band `[1, 3]`, draw `2`, previous
wait recorded at `t = 10` and the clock at `11`: the wait completes at
`12 = t + d` and records it; fresh and reset limiters do not sleep. -/
theorem C7_witness :
    ((RateLimiter.make 1 3).wait 11 2).1 = 0 ∧
    (10 + 2 ≤ 11 + ((⟨1, 3, some 10⟩ : RateLimiter).wait 11 2).1 ∧
      ((⟨1, 3, some 10⟩ : RateLimiter).wait 11 2).2.last_request_time
        = some (11 + ((⟨1, 3, some 10⟩ : RateLimiter).wait 11 2).1)) ∧
    ((⟨1, 3, some 10⟩ : RateLimiter).reset.wait 11 2).1 = 0 :=
  ⟨((C7_rate_limiter_contract (RateLimiter.make 1 3) 11 2 0
      (by norm_num [RateLimiter.make]) (by norm_num [RateLimiter.make])).1 rfl).1,
   ⟨((C7_rate_limiter_contract (⟨1, 3, some 10⟩ : RateLimiter) 11 2 10 (by norm_num)
      (by norm_num)).2.1 rfl).1,
    ((C7_rate_limiter_contract (⟨1, 3, some 10⟩ : RateLimiter) 11 2 10 (by norm_num)
      (by norm_num)).2.1 rfl).2.2⟩,
   ((C7_rate_limiter_contract (⟨1, 3, some 10⟩ : RateLimiter) 11 2 10 (by norm_num)
      (by norm_num)).2.2).1⟩

/-! ## Claim C8 -/

/-- C8: the sleep before retry `attempt` is
`min(base_delay * exponential_base ^ attempt, max_delay)`, multiplied,
when jitter is enabled, by the factor `0.5 + random()`, which for a
`random()` draw `r ∈ [0, 1)` lies in `[0.5, 1.5]`; the un-jittered
delay never exceeds `max_delay` and is non-decreasing in the attempt
index (for a non-negative base and a growth base at least 1). -/
theorem C8_backoff_delay_formula (base eb maxD r : ℚ) (a b : Nat)
    (hr0 : 0 ≤ r) (hr1 : r < 1) :
    sleepDelay true base eb maxD a r
      = backoffDelay base eb maxD a * jitterFactor r ∧
    sleepDelay false base eb maxD a r = backoffDelay base eb maxD a ∧
    backoffDelay base eb maxD a = min (base * eb ^ a) maxD ∧
    1/2 ≤ jitterFactor r ∧ jitterFactor r ≤ 3/2 ∧
    backoffDelay base eb maxD a ≤ maxD ∧
    (0 ≤ base → 1 ≤ eb → a ≤ b →
      backoffDelay base eb maxD a ≤ backoffDelay base eb maxD b) := by
  refine ⟨rfl, rfl, rfl, ?_, ?_, ?_, ?_⟩
  · unfold jitterFactor; linarith
  · unfold jitterFactor; linarith
  · exact min_le_right _ _
  · intro hbase heb hab
    unfold backoffDelay
    refine min_le_min ?_ (le_refl maxD)
    exact mul_le_mul_of_nonneg_left (pow_le_pow_right₀ heb hab) hbase

/-- Witness for C8: defaults `base_delay = 1`, growth `2`, cap `60`,
draw `r = 1/4`: the jittered delay at attempt 1 is `2 * 3/4`, the delay
is capped by 60 and grows from attempt 1 to attempt 3. -/
theorem C8_witness :
    sleepDelay true 1 2 60 1 (1/4) = backoffDelay 1 2 60 1 * jitterFactor (1/4) ∧
    backoffDelay 1 2 60 1 ≤ 60 ∧
    backoffDelay 1 2 60 1 ≤ backoffDelay 1 2 60 3 :=
  ⟨(C8_backoff_delay_formula 1 2 60 (1/4) 1 3 (by norm_num) (by norm_num)).1,
   (C8_backoff_delay_formula 1 2 60 (1/4) 1 3 (by norm_num) (by norm_num)).2.2.2.2.2.1,
   (C8_backoff_delay_formula 1 2 60 (1/4) 1 3 (by norm_num) (by norm_num)).2.2.2.2.2.2
     (by norm_num) (by norm_num) (by omega)⟩

/-! ## Crawl lemmas -/

/-- The record yielded for a listing entry does not depend on the
statistics accumulator. -/
lemma processProject_fst (includeDetails : Bool) (stats : Stats)
    (item : Nat × DetailOutcome) :
    (processProject includeDetails stats item).1 = yieldOf includeDetails item := by
  cases item with
  | mk id outcome =>
    cases includeDetails <;> cases outcome <;> rfl

/-- The records yielded for a page are the per-entry records, in
document order, independently of the statistics accumulator. -/
lemma processProjects_fst_map (includeDetails : Bool) :
    ∀ (items : List (Nat × DetailOutcome)) (stats : Stats),
      (processProjects includeDetails stats items).1
        = items.map (yieldOf includeDetails) := by
  intro items
  induction items with
  | nil => intro stats; rfl
  | cons item rest ih =>
    intro stats
    simp only [processProjects, List.map_cons]
    rw [processProject_fst, ih]

/-- Processing an appended batch processes the first batch, then the
second from the resulting accumulator. -/
lemma processProjects_append (includeDetails : Bool) :
    ∀ (xs ys : List (Nat × DetailOutcome)) (stats : Stats),
      processProjects includeDetails stats (xs ++ ys)
        = ((processProjects includeDetails stats xs).1
            ++ (processProjects includeDetails
                 (processProjects includeDetails stats xs).2 ys).1,
           (processProjects includeDetails
             (processProjects includeDetails stats xs).2 ys).2) := by
  intro xs
  induction xs with
  | nil => intro ys stats; simp [processProjects]
  | cons x rest ih =>
    intro ys stats
    simp only [List.cons_append, processProjects]
    simp only [List.append_eq]
    rw [ih]

/-- Entries whose detail page succeeds leave the error counter
untouched (only `details_fetched` moves). -/
lemma processProjects_ok_errors (includeDetails : Bool) :
    ∀ (items : List (Nat × DetailOutcome)) (stats : Stats),
      (∀ it ∈ items, ∃ d, it.2 = DetailOutcome.ok d) →
      (processProjects includeDetails stats items).2.errors = stats.errors := by
  intro items
  induction items with
  | nil => intro stats _; rfl
  | cons item rest ih =>
    intro stats hok
    obtain ⟨d, hd⟩ := hok item (List.mem_cons_self item rest)
    cases item with
    | mk id outcome =>
      simp only at hd
      subst hd
      simp only [processProjects]
      rw [ih _ (fun it hit => hok it (List.mem_cons_of_mem _ hit))]
      cases includeDetails <;> rfl

/-- A successfully fetched, non-empty listing page with a next-page
pointer contributes its records in front of whatever the remaining
crawl produces. -/
lemma scrapeLoop_ok_cons (includeDetails : Bool) (maxPages n : Nat) (stats : Stats)
    (p : PageData) (rest : List PageOutcome) (u : String)
    (hcond : ¬(maxPages ≠ 0 ∧ n ≥ maxPages)) (hne : p.projects ≠ [])
    (hnu : p.next_url = some u) :
    (scrapeLoop includeDetails maxPages stats n (.ok p :: rest)).yieldedRecords
      = p.projects.map (yieldOf includeDetails)
        ++ (scrapeLoop includeDetails maxPages
             (processProjects includeDetails
               { stats with
                   pages_scraped := stats.pages_scraped + 1
                   projects_found := stats.projects_found + p.projects.length }
               p.projects).2
             (n + 1) rest).yieldedRecords := by
  have hempty : p.projects.isEmpty = false := by
    cases hp : p.projects with
    | nil => exact absurd hp hne
    | cons a l => rfl
  simp only [scrapeLoop, hcond, if_false, reduceIte, hempty, hnu]
  rw [← processProjects_fst_map includeDetails p.projects
    { stats with
        pages_scraped := stats.pages_scraped + 1
        projects_found := stats.projects_found + p.projects.length }]
  cases hrec : scrapeLoop includeDetails maxPages
      (processProjects includeDetails
        { stats with
            pages_scraped := stats.pages_scraped + 1
            projects_found := stats.projects_found + p.projects.length }
        p.projects).2
      (n + 1) rest with
  | finished ys st r => simp [CrawlResult.yieldedRecords]
  | raised ys st ex => simp [CrawlResult.yieldedRecords]

/-! ## Claim C2 -/

/-- C2, as stated, is refuted: a crawl whose second listing page raises
a `ScraperError` (here a `NetworkError` surviving the retry layer)
terminates the generator normally — `scrape_projects` logs the error
and `break`s, so nothing is raised out of the lazy sequence; the
record from the first page has been yielded, the error counter is
bumped, but the caller sees no error. -/
theorem C2_counterexample :
    (scrapeLoop false 0 ⟨0, 0, 0, 0, 0⟩ 0
      [.ok ⟨[(1, .ok (.detail 1))], some "page2"⟩,
       .scraperError ⟨"NetworkError", "HTTP 500"⟩]).isRaised = false ∧
    scrapeLoop false 0 ⟨0, 0, 0, 0, 0⟩ 0
      [.ok ⟨[(1, .ok (.detail 1))], some "page2"⟩,
       .scraperError ⟨"NetworkError", "HTTP 500"⟩]
      = .finished [.listing 1] ⟨1, 1, 0, 2, 0⟩
          (.errorStop ⟨"NetworkError", "HTTP 500"⟩) := by decide

/-- C2 (amended): when a listing page raises a `ScraperError` (the
conversion of fetch-strategy exhaustion by the standard path, a
persisting `NetworkError`, or an unrecoverable listing parse failure)
or a `CloudflareBlockError`, the crawl stops at that page — but the
error is logged and swallowed, not propagated out of the lazy
sequence: the generator finishes normally with the error recorded only
in the error counter (twice for a generic `ScraperError`, once for a
`CloudflareBlockError`).  Records yielded before the failing page are
unaffected: a successfully processed page contributes its records in
front of whatever the rest of the crawl produces. -/
theorem C2_errors_swallowed_not_raised (includeDetails : Bool)
    (maxPages n : Nat) (stats : Stats) (e : Exn) (rest : List PageOutcome)
    (p : PageData) (u : String)
    (hgate : maxPages = 0 ∨ n < maxPages) :
    (scrapeLoop includeDetails maxPages stats n (.scraperError e :: rest)
      = .finished [] { stats with errors := stats.errors + 2 } (.errorStop e)) ∧
    ((scrapeLoop includeDetails maxPages stats n (.scraperError e :: rest)).isRaised
      = false) ∧
    (scrapeLoop includeDetails maxPages stats n (.cloudflareBlock :: rest)
      = .finished [] { stats with errors := stats.errors + 1 } .cloudflareStop) ∧
    (p.projects ≠ [] → p.next_url = some u →
      (scrapeLoop includeDetails maxPages stats n (.ok p :: rest)).yieldedRecords
        = p.projects.map (yieldOf includeDetails)
          ++ (scrapeLoop includeDetails maxPages
               (processProjects includeDetails
                 { stats with
                     pages_scraped := stats.pages_scraped + 1
                     projects_found := stats.projects_found + p.projects.length }
                 p.projects).2
               (n + 1) rest).yieldedRecords) := by
  have hcond : ¬(maxPages ≠ 0 ∧ n ≥ maxPages) := by omega
  refine ⟨?_, ?_, ?_, ?_⟩
  · simp [scrapeLoop, hcond]
  · simp [scrapeLoop, hcond, CrawlResult.isRaised]
  · simp [scrapeLoop, hcond]
  · intro hne hnu
    exact scrapeLoop_ok_cons includeDetails maxPages n stats p rest u hcond hne hnu

/-- Witness for C2 (amended), at the counterexample's crawl: the
failing second page swallows the error, and the first page's record
survives in front. -/
theorem C2_witness :
    (scrapeLoop false 0 ⟨0, 0, 0, 0, 0⟩ 0
      [.scraperError ⟨"NetworkError", "HTTP 500"⟩]
      = .finished [] ⟨0, 0, 0, 2, 0⟩
          (.errorStop ⟨"NetworkError", "HTTP 500"⟩)) ∧
    ((scrapeLoop false 0 ⟨0, 0, 0, 0, 0⟩ 0
      [.ok ⟨[(1, .ok (.detail 1))], some "page2"⟩,
       .scraperError ⟨"NetworkError", "HTTP 500"⟩]).yieldedRecords
      = [(1, DetailOutcome.ok (PRecord.detail 1))].map (yieldOf false)
        ++ (scrapeLoop false 0
             (processProjects false ⟨1, 1, 0, 0, 0⟩
               [(1, DetailOutcome.ok (PRecord.detail 1))]).2
             1 [.scraperError ⟨"NetworkError", "HTTP 500"⟩]).yieldedRecords) :=
  ⟨(C2_errors_swallowed_not_raised false 0 0 ⟨0, 0, 0, 0, 0⟩
      ⟨"NetworkError", "HTTP 500"⟩ [] ⟨[(1, .ok (.detail 1))], some "page2"⟩ "page2"
      (Or.inl rfl)).1,
   (C2_errors_swallowed_not_raised false 0 0 ⟨0, 0, 0, 0, 0⟩
      ⟨"NetworkError", "HTTP 500"⟩ [.scraperError ⟨"NetworkError", "HTTP 500"⟩]
      ⟨[(1, .ok (.detail 1))], some "page2"⟩ "page2"
      (Or.inl rfl)).2.2.2 (by decide) rfl⟩

/-! ## Claim C6 -/

/-- C6: partial-failure isolation for detail pages.  With details
requested, a listing entry whose detail fetch/parse raises a
`ScraperError` (in particular a `NetworkError` persisting after all
retries) yields the listing-derived fallback record
(`ProjectDetail.from_listing`) with the error counter bumped; the
page's records are still produced one per entry in document order (the
failing entry contributing its fallback record at its position); with
the surrounding entries succeeding, the error counter of the page's
processing grows by exactly one; and the crawl goes on with the rest
of the pages. -/
theorem C6_detail_failure_yields_listing_record (stats : Stats) (id : Nat)
    (e : Exn) (pre post : List (Nat × DetailOutcome)) (p : PageData)
    (rest : List PageOutcome) (maxPages n : Nat) (u : String)
    (hpre : ∀ it ∈ pre, ∃ d, it.2 = DetailOutcome.ok d)
    (hpost : ∀ it ∈ post, ∃ d, it.2 = DetailOutcome.ok d)
    (hproj : p.projects = pre ++ (id, DetailOutcome.scraperError e) :: post)
    (hnext : p.next_url = some u)
    (hgate : maxPages = 0 ∨ n < maxPages) :
    (processProject true stats (id, DetailOutcome.scraperError e)
      = (PRecord.detailFromListing id,
         { stats with errors := stats.errors + 1 })) ∧
    ((processProjects true stats p.projects).1
      = pre.map (yieldOf true)
        ++ PRecord.detailFromListing id :: post.map (yieldOf true)) ∧
    ((processProjects true stats p.projects).2.errors = stats.errors + 1) ∧
    ((scrapeLoop true maxPages stats n (.ok p :: rest)).yieldedRecords
      = p.projects.map (yieldOf true)
        ++ (scrapeLoop true maxPages
             (processProjects true
               { stats with
                   pages_scraped := stats.pages_scraped + 1
                   projects_found := stats.projects_found + p.projects.length }
               p.projects).2
             (n + 1) rest).yieldedRecords) := by
  have hcond : ¬(maxPages ≠ 0 ∧ n ≥ maxPages) := by omega
  refine ⟨rfl, ?_, ?_, ?_⟩
  · rw [hproj, processProjects_fst_map]
    simp only [List.map_append, List.map_cons]
    rfl
  · rw [hproj, processProjects_append]
    simp only [processProjects, processProject, scrape_project_detail]
    rw [processProjects_ok_errors true post _
      (fun it hit => hpost it hit)]
    have h1 : (processProjects true stats pre).2.errors = stats.errors :=
      processProjects_ok_errors true pre stats (fun it hit => hpre it hit)
    simp [h1]
  · refine scrapeLoop_ok_cons true maxPages n stats p rest u hcond ?_ hnext
    rw [hproj]
    simp

/-- Witness for C6: a one-entry page whose detail page keeps failing
with a `NetworkError`; the crawl yields the listing-derived fallback
and counts one error. -/
theorem C6_witness :
    (processProject true ⟨0, 0, 0, 0, 0⟩ (5, DetailOutcome.scraperError
        ⟨"NetworkError", "connection refused"⟩)
      = (PRecord.detailFromListing 5, ⟨0, 0, 0, 0 + 1, 0⟩)) ∧
    ((processProjects true ⟨0, 0, 0, 0, 0⟩
        [(5, DetailOutcome.scraperError ⟨"NetworkError", "connection refused"⟩)]).2.errors
      = 0 + 1) :=
  ⟨(C6_detail_failure_yields_listing_record ⟨0, 0, 0, 0, 0⟩ 5
      ⟨"NetworkError", "connection refused"⟩ [] []
      ⟨[(5, DetailOutcome.scraperError ⟨"NetworkError", "connection refused"⟩)], some "n"⟩
      [] 0 0 "n" (by simp) (by simp) rfl rfl (Or.inl rfl)).1,
   (C6_detail_failure_yields_listing_record ⟨0, 0, 0, 0, 0⟩ 5
      ⟨"NetworkError", "connection refused"⟩ [] []
      ⟨[(5, DetailOutcome.scraperError ⟨"NetworkError", "connection refused"⟩)], some "n"⟩
      [] 0 0 "n" (by simp) (by simp) rfl rfl (Or.inl rfl)).2.2.1⟩
